import Mathlib

/-!
Shallow embedding of the real-time delivery subsystem of the chat-app server
(`internal/infrastructure/websocket/hub.go`, the Client read/write pumps, the
WebSocket upgrade handler, and the publish step of the HTTP SendMessage
handlers), together with theorems checking the natural-language specification
against it.

Modelling conventions:
* Go `map[string]*Client` (the hub registry) is modelled as a total function
  `String → Option Session`; a Go map holds at most one value per key, and the
  hub's broadcast loops touch each key independently, so the pointwise model is
  exact for `broadcastToChat`/`broadcastToAll`.  `broadcastToFriends` iterates
  over a friend *list*, so it is modelled as a fold over that list.
* Go `map[string]bool` (the per-client subscription set `Chats`) is modelled as
  `String → Bool`: reading a missing key in Go yields the zero value `false`,
  exactly the function model.
* A Go buffered channel (`Send chan []byte`, capacity 256) is modelled as the
  list of its queued messages plus a `sendClosed` flag; the non-blocking
  `select { case ch <- v: default: }` succeeds exactly when fewer than 256
  items are buffered.  The hub enqueues `messageToBytes message` (a JSON
  serialization that cannot fail for this struct); we model the enqueued value
  by the `Message` itself.
* Operations that may `close` a client's Send channel also return the list of
  sessions whose channel they closed (with `sendClosed` set), so that closing
  is observable in the pure model.
* The `Data map[string]interface{}` payload field of `Message` is never
  inspected by any routing decision in the source, so it is elided here; the
  routed fields (`Type`, `ChatID`, `GroupID`, `SenderID`, `Content`,
  `Timestamp`) are kept.
-/

namespace ChatApp

/-- `websocket.Message` from hub.go: the wire envelope.  `data` elided (never
routed on). -/
structure Message where
  type      : String
  chatID    : String
  groupID   : String
  senderID  : String
  content   : String
  timestamp : String
  deriving DecidableEq, Repr

/-- A connected client (`websocket.Client` in hub.go): userID, the outbound
buffered channel (queued messages + closed flag) and the subscription set
`Chats : map[string]bool`. -/
structure Session where
  userID     : String
  queue      : List Message
  sendClosed : Bool
  chats      : String → Bool

/-- `entity.User`, restricted to the fields `broadcastToFriends` reads. -/
structure User where
  id      : String
  friends : List String

/-- The hub's `clients` map, `userID -> Client`. -/
abbrev Registry := String → Option Session

/-- The empty registry (`make(map[string]*Client)`). -/
def emptyRegistry : Registry := fun _ => none

/-- Point update of the registry map (`h.clients[uid] = c` / `delete`). -/
def regSet (reg : Registry) (uid : String) (v : Option Session) : Registry :=
  fun x => if x = uid then v else reg x

/-- Capacity of each client's Send channel: `make(chan []byte, 256)`. -/
def sendCap : Nat := 256

/-- Capacity of the hub's Broadcast channel: `make(chan *Message, 256)`. -/
def broadcastCap : Nat := 256

/-- Outcome of the non-blocking send in the hub's broadcast loops. -/
inductive SendResult where
  | enqueued (s : Session)
  | evicted  (s : Session)

/-- `select { case client.Send <- bytes: default: close(client.Send); ... }`:
enqueue when the buffer has room, otherwise close the channel (the caller then
deletes the registry entry). -/
def trySend (m : Message) (s : Session) : SendResult :=
  if s.queue.length < sendCap then
    .enqueued { s with queue := s.queue ++ [m] }
  else
    .evicted { s with sendClosed := true }

/-- The registry entry after the non-blocking send: kept (possibly with a
longer queue) or deleted. -/
def applySend : SendResult → Option Session
  | .enqueued s => some s
  | .evicted _  => none

/-- hub.go `broadcastToChat`: `chatID := message.ChatID; if chatID == "" {
chatID = message.GroupID }`. -/
def targetChatID (m : Message) : String :=
  if m.chatID = "" then m.groupID else m.chatID

/-- `Hub.broadcastToChat`: for every registered client, if its `Chats` map
contains the target chat ID, attempt the non-blocking send, evicting the
client (close + delete) when its buffer is full.  Each loop iteration touches
only that client's own registry key, so the pointwise model is exact. -/
def broadcastToChat (m : Message) (reg : Registry) : Registry := fun uid =>
  match reg uid with
  | none => none
  | some s =>
      if s.chats (targetChatID m) then applySend (trySend m s) else some s

/-- `Hub.broadcastToAll`: same, without the subscription check. -/
def broadcastToAll (m : Message) (reg : Registry) : Registry := fun uid =>
  match reg uid with
  | none => none
  | some s => applySend (trySend m s)

/-- One iteration of the `for _, friendID := range user.Friends` loop in
`Hub.broadcastToFriends`, threading the registry and the list of sessions
whose Send channel was closed. -/
def friendDeliver (m : Message) (st : Registry × List Session)
    (friendID : String) : Registry × List Session :=
  match st.1 friendID with
  | none => st
  | some s =>
      match trySend m s with
      | .enqueued s' => (regSet st.1 friendID (some s'), st.2)
      | .evicted s'  => (regSet st.1 friendID none, st.2 ++ [s'])

/-- `Hub.broadcastToFriends`: look the sender up in the user store; on error
return with nothing delivered; otherwise attempt delivery to each registered
friend in the sender's friend list. -/
def broadcastToFriends (getByID : String → Option User) (m : Message)
    (reg : Registry) : Registry × List Session :=
  match getByID m.senderID with
  | none => (reg, [])
  | some user => user.friends.foldl (friendDeliver m) (reg, [])

/-- `Hub.handleBroadcast`: dispatch on the event kind.  `message` and `typing`
are topic fan-out, `online`/`offline` are graph fan-out, everything else falls
to the broadcast-to-all default. -/
def handleBroadcast (getByID : String → Option User) (m : Message)
    (reg : Registry) : Registry × List Session :=
  if m.type = "message" then (broadcastToChat m reg, [])
  else if m.type = "typing" then (broadcastToChat m reg, [])
  else if m.type = "online" ∨ m.type = "offline" then
    broadcastToFriends getByID m reg
  else (broadcastToAll m reg, [])

/-- The `Register` case of `Hub.Run`: `h.clients[client.UserID] = client`.
The register case contains no `close` call, so the closed-session list is
empty. -/
def registerStep (reg : Registry) (c : Session) : Registry × List Session :=
  (regSet reg c.userID (some c), [])

/-- The `Unregister` case of `Hub.Run`: if *any* entry exists under the
client's userID it is deleted and the unregistering client's own Send channel
is closed (`close(client.Send)`); the code does not check that the entry still
points at this client. -/
def unregisterStep (reg : Registry) (c : Session) : Registry × List Session :=
  if (reg c.userID).isSome then
    (regSet reg c.userID none, [{ c with sendClosed := true }])
  else (reg, [])

/-- `Hub.broadcastOnlineStatus`: look the user up (return silently on error),
then publish an `online`/`offline` envelope through `broadcastToFriends`. -/
def statusMessage (uid : String) (online : Bool) : Message :=
  { type := if online then "online" else "offline"
    chatID := "", groupID := "", senderID := uid, content := "", timestamp := "" }

def broadcastOnlineStatus (getByID : String → Option User) (uid : String)
    (online : Bool) (reg : Registry) : Registry × List Session :=
  match getByID uid with
  | none => (reg, [])
  | some _ => broadcastToFriends getByID (statusMessage uid online) reg

/-- The full `Register` case of `Hub.Run`: install the client, then broadcast
its online status to its friends.  (The presence-store write between the two
is external and does not touch the registry.) -/
def runRegister (getByID : String → Option User) (reg : Registry)
    (c : Session) : Registry × List Session :=
  broadcastOnlineStatus getByID c.userID true (regSet reg c.userID (some c))

/-- `Hub.IsUserOnline`. -/
def isUserOnline (reg : Registry) (uid : String) : Bool :=
  (reg uid).isSome

/-- Well-formed registry: every entry's session carries the userID it is keyed
under.  All inserts go through `h.clients[client.UserID] = client`, so this
holds at every reachable hub state. -/
def WFReg (reg : Registry) : Prop :=
  ∀ uid s, reg uid = some s → s.userID = uid

/-! ### Client.ReadPump (the session reader loop) -/

/-- `maxMessageSize = 512 * 1024` (the `SetReadLimit` argument). -/
def maxMessageSize : Nat := 512 * 1024

/-- One inbound transport frame, as the reader loop sees it: its byte size and
the result of `json.Unmarshal` on its bytes (`none` = malformed). -/
structure Frame where
  size   : Nat
  parsed : Option Message

/-- The `switch message.Type` body of `Client.ReadPump`: `subscribe` /
`unsubscribe` mutate the local `Chats` map (chat ID and group ID fields
independently, when non-empty) and forward nothing; every other kind
(including `typing` and the default case) is forwarded to `Hub.Broadcast`.
Returns the new subscription set and the list of envelopes forwarded to the
hub. -/
def handleInbound (chats : String → Bool) (m : Message) :
    (String → Bool) × List Message :=
  if m.type = "subscribe" then
    let chats1 := if m.chatID ≠ "" then
        (fun x => if x = m.chatID then true else chats x) else chats
    let chats2 := if m.groupID ≠ "" then
        (fun x => if x = m.groupID then true else chats1 x) else chats1
    (chats2, [])
  else if m.type = "unsubscribe" then
    let chats1 := if m.chatID ≠ "" then
        (fun x => if x = m.chatID then false else chats x) else chats
    let chats2 := if m.groupID ≠ "" then
        (fun x => if x = m.groupID then false else chats1 x) else chats1
    (chats2, [])
  else (chats, [m])

/-- Result of one iteration of the reader loop. -/
inductive ReadStep where
  /-- `break` out of the loop: the deferred `Unregister <- c; Conn.Ws.Close()`
  runs, i.e. the session is unregistered and the connection closed. -/
  | closed
  /-- Loop continues with the given subscription set, having forwarded the
  given envelopes to `Hub.Broadcast`. -/
  | continuing (chats : String → Bool) (forwarded : List Message)

/-- One iteration of `Client.ReadPump`'s `for` loop on an arriving frame.
`Conn.Ws.ReadMessage` returns an error for a frame above the read limit
(gorilla/websocket's documented `SetReadLimit` contract: the connection sends
a close message and returns `ErrReadLimit`), which hits the `break`;
a frame that fails `json.Unmarshal` is logged and skipped via `continue`;
otherwise the envelope is dispatched on its type. -/
def readPumpStep (chats : String → Bool) (f : Frame) : ReadStep :=
  if maxMessageSize < f.size then .closed
  else
    match f.parsed with
    | none => .continuing chats []
    | some m =>
        let r := handleInbound chats m
        .continuing r.1 r.2

/-! ### The HTTP publish bridge (SendMessage handlers) -/

/-- The non-blocking publish in `ChatHandler.SendMessage` /
`ConversationHandler.SendMessage`:
`select { case h.Hub.Broadcast <- message: default: }` on the hub's bounded
Broadcast queue — enqueue when there is room, silently drop otherwise. -/
def tryPublish (queue : List Message) (m : Message) : List Message :=
  if queue.length < broadcastCap then queue ++ [m] else queue

/-- The handler's HTTP response status after the mutation succeeded. -/
inductive HandlerResp where
  | ok
  | unauthorized
  | internalError
  deriving DecidableEq, Repr

/-- The tail of both SendMessage handlers once the use case has durably
committed the message: build the envelope, attempt the non-blocking publish,
and answer `200 OK` with the stored result regardless of the publish
outcome. -/
def sendMessagePublish (queue : List Message) (m : Message) :
    List Message × HandlerResp :=
  (tryPublish queue m, .ok)

/-! ### The WebSocket upgrade handler -/

/-- The parts of the upgrade request the handler reads. -/
structure UpgradeRequest where
  queryToken : String
  authHeader : String

/-- Token extraction in `WebSocketHandler.HandleWebSocket`: the `token` query
parameter first; otherwise the `Authorization` header when it splits on a
space into exactly `["Bearer", t]`. -/
def extractToken (r : UpgradeRequest) : String :=
  if r.queryToken ≠ "" then r.queryToken
  else if r.authHeader ≠ "" then
    let parts := r.authHeader.splitOn " "
    if parts.length = 2 ∧ parts.headD "" = "Bearer" then parts.getLastD ""
    else ""
  else ""

/-- Outcome of `HandleWebSocket`. -/
inductive UpgradeOutcome where
  /-- A `401` JSON response was written; no session was created, nothing was
  registered, no pump goroutines started. -/
  | unauthorized (msg : String)
  /-- `upgrader.Upgrade` failed; the handler returns with no session. -/
  | upgradeFailed
  /-- A client with this userID was created, sent to `Hub.Register`, and its
  `WritePump`/`ReadPump` goroutines were started. -/
  | registered (userID : String)
  deriving DecidableEq, Repr

/-- `WebSocketHandler.HandleWebSocket`, parametrised by the outcome of
`jwt.ValidateToken` (`validate`, returning the claims' userID on success) and
of `upgrader.Upgrade`. -/
def handleWebSocket (validate : String → Option String) (upgradeOk : Bool)
    (r : UpgradeRequest) : UpgradeOutcome :=
  let token := extractToken r
  if token = "" then .unauthorized "token required"
  else
    match validate token with
    | none => .unauthorized "invalid or expired token"
    | some userID =>
        if upgradeOk then .registered userID else .upgradeFailed

/-- The session the handler registers, when it registers one. -/
def sessionCreated (validate : String → Option String) (upgradeOk : Bool)
    (r : UpgradeRequest) : Option Session :=
  match handleWebSocket validate upgradeOk r with
  | .registered userID =>
      some { userID := userID, queue := [], sendClosed := false
             chats := fun _ => false }
  | _ => none

/-! ### Small concrete objects used by counterexamples and witnesses -/

/-- A concrete `message` envelope for conversation `c1` sent by `a`. -/
def msgA : Message :=
  { type := "message", chatID := "c1", groupID := "", senderID := "a"
    content := "hi", timestamp := "" }

/-- A concrete `reaction` envelope for conversation `c1`. -/
def reactionMsg : Message :=
  { type := "reaction", chatID := "c1", groupID := "", senderID := "a"
    content := "", timestamp := "" }

/-- An older session for user `u` (empty queue). -/
def staleSession : Session :=
  { userID := "u", queue := [], sendClosed := false, chats := fun _ => false }

/-- A newer session for user `u`, distinguishable from `staleSession` by its
queue. -/
def newerSession : Session :=
  { userID := "u", queue := [msgA], sendClosed := false, chats := fun _ => false }

/-- A registered session for user `w` subscribed to nothing. -/
def unsubSession : Session :=
  { userID := "w", queue := [], sendClosed := false, chats := fun _ => false }

/-! ### Lemmas about the friend fan-out fold -/

theorem regSet_self (reg : Registry) (uid : String) (v : Option Session) :
    regSet reg uid v uid = v := by
  simp [regSet]

theorem regSet_ne (reg : Registry) (uid x : String) (v : Option Session)
    (h : x ≠ uid) : regSet reg uid v x = reg x := by
  simp [regSet, h]

theorem friendDeliver_eq_none (m : Message) (st : Registry × List Session)
    (f : String) (h : st.1 f = none) : friendDeliver m st f = st := by
  simp [friendDeliver, h]

theorem friendDeliver_eq_enqueued (m : Message) (st : Registry × List Session)
    (f : String) (s s' : Session) (h : st.1 f = some s)
    (ht : trySend m s = .enqueued s') :
    friendDeliver m st f = (regSet st.1 f (some s'), st.2) := by
  simp [friendDeliver, h, ht]

theorem friendDeliver_eq_evicted (m : Message) (st : Registry × List Session)
    (f : String) (s s' : Session) (h : st.1 f = some s)
    (ht : trySend m s = .evicted s') :
    friendDeliver m st f = (regSet st.1 f none, st.2 ++ [s']) := by
  simp [friendDeliver, h, ht]

theorem trySend_enqueued_userID (m : Message) (s s' : Session)
    (h : trySend m s = .enqueued s') : s'.userID = s.userID := by
  by_cases hlt : s.queue.length < sendCap <;> simp [trySend, hlt] at h
  rw [← h]

theorem trySend_evicted_userID (m : Message) (s s' : Session)
    (h : trySend m s = .evicted s') : s'.userID = s.userID := by
  by_cases hlt : s.queue.length < sendCap <;> simp [trySend, hlt] at h
  rw [← h]

theorem friendDeliver_fst_ne (m : Message) (st : Registry × List Session)
    (f uid : String) (h : uid ≠ f) :
    (friendDeliver m st f).1 uid = st.1 uid := by
  rcases hst : st.1 f with _ | s
  · rw [friendDeliver_eq_none m st f hst]
  · rcases htr : trySend m s with s' | s'
    · rw [friendDeliver_eq_enqueued m st f s s' hst htr]
      exact regSet_ne st.1 f uid (some s') h
    · rw [friendDeliver_eq_evicted m st f s s' hst htr]
      exact regSet_ne st.1 f uid none h

theorem friendDeliver_fst_none (m : Message) (st : Registry × List Session)
    (f uid : String) (h : st.1 uid = none) :
    (friendDeliver m st f).1 uid = none := by
  by_cases he : uid = f
  · subst he
    rw [friendDeliver_eq_none m st uid h]
    exact h
  · rw [friendDeliver_fst_ne m st f uid he]
    exact h

theorem foldl_friendDeliver_fst_not_mem (m : Message) (l : List String)
    (uid : String) :
    ∀ st : Registry × List Session, uid ∉ l →
      (l.foldl (friendDeliver m) st).1 uid = st.1 uid := by
  induction l with
  | nil => intro st _; rfl
  | cons f t ih =>
      intro st h
      have hne : uid ≠ f := fun e => h (e ▸ List.mem_cons_self f t)
      have ht : uid ∉ t := fun hm => h (List.mem_cons_of_mem f hm)
      rw [List.foldl_cons, ih _ ht, friendDeliver_fst_ne m st f uid hne]

theorem foldl_friendDeliver_fst_none (m : Message) (l : List String)
    (uid : String) :
    ∀ st : Registry × List Session, st.1 uid = none →
      (l.foldl (friendDeliver m) st).1 uid = none := by
  induction l with
  | nil => intro st h; exact h
  | cons f t ih =>
      intro st h
      rw [List.foldl_cons]
      exact ih _ (friendDeliver_fst_none m st f uid h)

theorem foldl_friendDeliver_fst_mem (m : Message) (l : List String)
    (uid : String) :
    ∀ st : Registry × List Session, l.Nodup → uid ∈ l →
      (l.foldl (friendDeliver m) st).1 uid =
        (st.1 uid).bind (fun s => applySend (trySend m s)) := by
  induction l with
  | nil => intro st _ hm; cases hm
  | cons f t ih =>
      intro st hn hm
      rw [List.foldl_cons]
      rcases List.mem_cons.mp hm with he | htmem
      · subst he
        have hnt : uid ∉ t := (List.nodup_cons.mp hn).1
        rw [foldl_friendDeliver_fst_not_mem m t uid _ hnt]
        rcases hst : st.1 uid with _ | s
        · rw [friendDeliver_eq_none m st uid hst, hst]
          rfl
        · rcases htr : trySend m s with s' | s'
          · rw [friendDeliver_eq_enqueued m st uid s s' hst htr]
            simp [regSet, hst, htr, applySend]
          · rw [friendDeliver_eq_evicted m st uid s s' hst htr]
            simp [regSet, hst, htr, applySend]
      · have hne : uid ≠ f := fun e => (List.nodup_cons.mp hn).1 (e ▸ htmem)
        rw [ih _ (List.nodup_cons.mp hn).2 htmem,
          friendDeliver_fst_ne m st f uid hne]

theorem friendDeliver_wf (m : Message) (st : Registry × List Session)
    (f : String) (h : WFReg st.1) : WFReg (friendDeliver m st f).1 := by
  rcases hst : st.1 f with _ | s
  · rw [friendDeliver_eq_none m st f hst]
    exact h
  · rcases htr : trySend m s with s' | s'
    · rw [friendDeliver_eq_enqueued m st f s s' hst htr]
      intro uid s0 hs0
      by_cases he : uid = f
      · subst he
        simp [regSet] at hs0
        rw [← hs0, trySend_enqueued_userID m s s' htr]
        exact h uid s hst
      · simp [regSet, he] at hs0
        exact h uid s0 hs0
    · rw [friendDeliver_eq_evicted m st f s s' hst htr]
      intro uid s0 hs0
      by_cases he : uid = f
      · subst he
        simp [regSet] at hs0
      · simp [regSet, he] at hs0
        exact h uid s0 hs0

theorem foldl_friendDeliver_closed (m : Message) (l : List String) :
    ∀ st : Registry × List Session, WFReg st.1 →
      ∀ c ∈ (l.foldl (friendDeliver m) st).2, c ∈ st.2 ∨ c.userID ∈ l := by
  induction l with
  | nil => intro st _ c hc; exact Or.inl hc
  | cons f t ih =>
      intro st hwf c hc
      rw [List.foldl_cons] at hc
      rcases ih (friendDeliver m st f) (friendDeliver_wf m st f hwf) c hc with
        h1 | h2
      · rcases hst : st.1 f with _ | s
        · rw [friendDeliver_eq_none m st f hst] at h1
          exact Or.inl h1
        · rcases htr : trySend m s with s' | s'
          · rw [friendDeliver_eq_enqueued m st f s s' hst htr] at h1
            exact Or.inl h1
          · rw [friendDeliver_eq_evicted m st f s s' hst htr] at h1
            rcases List.mem_append.mp h1 with h3 | h3
            · exact Or.inl h3
            · have hcs : c = s' := List.mem_singleton.mp h3
              have : c.userID = f := by
                rw [hcs, trySend_evicted_userID m s s' htr]
                exact hwf f s hst
              exact Or.inr (this ▸ List.mem_cons_self f t)
      · exact Or.inr (List.mem_cons_of_mem f h2)

/-! ## Theorems -/

/-- C1, counterexample: with `newerSession` installed as the current entry for
user `u`, unregistering the distinct `staleSession` (same userID) does *not*
leave the entry unchanged — the entry is deleted, because the Unregister case
of `Hub.Run` checks only that some entry exists under the userID, not that it
still points at the unregistering session. -/
theorem unregister_stale_removes_newer_entry :
    staleSession ≠ newerSession ∧
    staleSession.userID = "u" ∧
    (regSet emptyRegistry "u" (some newerSession)) "u" = some newerSession ∧
    (unregisterStep (regSet emptyRegistry "u" (some newerSession))
        staleSession).1 "u" ≠ some newerSession := by
  refine ⟨?_, rfl, rfl, ?_⟩
  · intro h
    have hq := congrArg Session.queue h
    simp [staleSession, newerSession] at hq
  · intro h
    have h1 : (unregisterStep (regSet emptyRegistry "u" (some newerSession))
        staleSession).1 "u" = none := by
      simp [unregisterStep, regSet, emptyRegistry, staleSession]
    rw [h1] at h
    exact Option.noConfusion h

/-- C1, amended: `Unregister(userID, s1)` removes the registry entry for that
userID whenever *any* entry exists under it — even when the entry points at a
newer, different session — and closes only the unregistering session's own
outbound queue; entries under other userIDs are untouched. -/
theorem unregister_removes_any_entry (reg : Registry) (c s : Session)
    (h : reg c.userID = some s) :
    (unregisterStep reg c).1 c.userID = none ∧
    (unregisterStep reg c).2 = [{ c with sendClosed := true }] ∧
    ∀ uid, uid ≠ c.userID → (unregisterStep reg c).1 uid = reg uid := by
  have hsome : (reg c.userID).isSome := by rw [h]; rfl
  refine ⟨?_, ?_, ?_⟩
  · simp [unregisterStep, hsome, regSet]
  · simp [unregisterStep, hsome]
  · intro uid huid
    simp [unregisterStep, hsome, regSet, huid]

/-- Witness for `unregister_removes_any_entry` at a concrete registry. -/
theorem unregister_removes_any_entry_witness :
    ((unregisterStep (regSet emptyRegistry "u" (some newerSession))
        staleSession).1 "u" = none ∧
     (unregisterStep (regSet emptyRegistry "u" (some newerSession))
        staleSession).2 = [{ staleSession with sendClosed := true }] ∧
     ∀ uid, uid ≠ staleSession.userID →
       (unregisterStep (regSet emptyRegistry "u" (some newerSession))
          staleSession).1 uid =
         (regSet emptyRegistry "u" (some newerSession)) uid) := by
  have h := unregister_removes_any_entry
    (regSet emptyRegistry "u" (some newerSession)) staleSession newerSession
    (by simp [regSet, emptyRegistry, staleSession])
  exact ⟨h.1, h.2.1, h.2.2⟩

/-- C2, counterexample: user `w` is registered but subscribed to no
conversation, yet a `reaction` event for conversation `c1` is delivered to
`w`'s outbound queue — `reaction` has no case in `handleBroadcast`'s switch
and falls to the broadcast-to-all default, contradicting topic fan-out. -/
theorem reaction_delivered_to_unsubscribed :
    unsubSession.chats (targetChatID reactionMsg) = false ∧
    (handleBroadcast (fun _ => none) reactionMsg
        (regSet emptyRegistry "w" (some unsubSession))).1 "w" =
      some { unsubSession with queue := [reactionMsg] } := by
  constructor
  · rfl
  · simp [handleBroadcast, reactionMsg, broadcastToAll, regSet, emptyRegistry,
      applySend, trySend, unsubSession, sendCap]

/-- C2, amended: `reaction` and `read_receipt` events are not topic-routed at
all — they fall to `handleBroadcast`'s default branch and are delivered to
*every* currently registered session with spare queue capacity, regardless of
its subscription set (and full-queue sessions are evicted). -/
theorem reaction_read_receipt_broadcast_to_all
    (getByID : String → Option User) (m : Message) (reg : Registry)
    (hty : m.type = "reaction" ∨ m.type = "read_receipt") :
    (handleBroadcast getByID m reg).1 = broadcastToAll m reg ∧
    (handleBroadcast getByID m reg).2 = [] ∧
    ∀ uid s, reg uid = some s → s.queue.length < sendCap →
      (handleBroadcast getByID m reg).1 uid =
        some { s with queue := s.queue ++ [m] } := by
  have hdis : (handleBroadcast getByID m reg) = (broadcastToAll m reg, []) := by
    rcases hty with h | h <;>
      simp [handleBroadcast, h]
  refine ⟨by rw [hdis], by rw [hdis], ?_⟩
  intro uid s hreg hroom
  rw [hdis]
  simp [broadcastToAll, hreg, trySend, applySend, hroom]

/-- Witness for `reaction_read_receipt_broadcast_to_all` at a concrete
registry. -/
theorem reaction_read_receipt_broadcast_to_all_witness :
    ((handleBroadcast (fun _ => none) reactionMsg
        (regSet emptyRegistry "w" (some unsubSession))).1 =
      broadcastToAll reactionMsg (regSet emptyRegistry "w" (some unsubSession)) ∧
     (handleBroadcast (fun _ => none) reactionMsg
        (regSet emptyRegistry "w" (some unsubSession))).2 = [] ∧
     (handleBroadcast (fun _ => none) reactionMsg
        (regSet emptyRegistry "w" (some unsubSession))).1 "w" =
       some { unsubSession with queue := unsubSession.queue ++ [reactionMsg] }) := by
  have h := reaction_read_receipt_broadcast_to_all (fun _ => none) reactionMsg
    (regSet emptyRegistry "w" (some unsubSession)) (Or.inl rfl)
  exact ⟨h.1, h.2.1,
    h.2.2 "w" unsubSession (by simp [regSet]) (by simp [unsubSession, sendCap])⟩

/-- C7: after a durable mutation, the SendMessage handlers' publish is a
non-blocking enqueue onto the bounded Broadcast queue: with free capacity the
envelope is appended, on a full queue it is silently dropped (queue
unchanged), and in both cases the caller gets `200 OK` with no error
surfaced. -/
theorem publish_fire_and_forget (queue : List Message) (m : Message) :
    (sendMessagePublish queue m).2 = .ok ∧
    (queue.length < broadcastCap →
      (sendMessagePublish queue m).1 = queue ++ [m]) ∧
    (broadcastCap ≤ queue.length →
      (sendMessagePublish queue m).1 = queue) := by
  refine ⟨rfl, ?_, ?_⟩
  · intro h
    simp [sendMessagePublish, tryPublish, h]
  · intro h
    simp [sendMessagePublish, tryPublish, Nat.not_lt_of_le h]

/-- Witness for `publish_fire_and_forget`: an empty queue accepts the
envelope; a queue at capacity 256 drops it; both answer `ok`. -/
theorem publish_fire_and_forget_witness :
    ((sendMessagePublish [] msgA).2 = .ok ∧
     (sendMessagePublish [] msgA).1 = [msgA]) ∧
    ((sendMessagePublish (List.replicate 256 msgA) msgA).2 = .ok ∧
     (sendMessagePublish (List.replicate 256 msgA) msgA).1 =
       List.replicate 256 msgA) := by
  have h1 := publish_fire_and_forget [] msgA
  have h2 := publish_fire_and_forget (List.replicate 256 msgA) msgA
  refine ⟨⟨h1.1, ?_⟩, ⟨h2.1, ?_⟩⟩
  · have := h1.2.1 (by simp [broadcastCap])
    simpa using this
  · exact h2.2.2 (le_of_eq (List.length_replicate ..).symm)

/-- C8, counterexample: a frame one byte over the 512 KiB read limit makes
the reader loop terminate (`ReadMessage` returns `ErrReadLimit`, the loop
breaks, the deferred teardown unregisters the session and closes the
connection) — it is not dropped with the connection kept alive. -/
theorem oversized_frame_closes_connection :
    readPumpStep (fun _ => false) ⟨maxMessageSize + 1, none⟩ = .closed ∧
    readPumpStep (fun _ => false) ⟨maxMessageSize + 1, none⟩ ≠
      .continuing (fun _ => false) [] := by
  constructor
  · simp [readPumpStep]
  · intro h
    have h1 : readPumpStep (fun _ => false) ⟨maxMessageSize + 1, none⟩ =
        .closed := by simp [readPumpStep]
    rw [h1] at h
    exact ReadStep.noConfusion h

/-- C8, amended: a malformed (non-parseable) frame within the read limit is
logged and discarded — nothing is forwarded to the hub, the subscription set
is untouched, and the loop continues — but an *oversized* frame causes a read
error that breaks the loop, so the session is unregistered and the connection
closed rather than kept alive. -/
theorem malformed_skipped_oversized_closes (chats : String → Bool) (f : Frame) :
    (f.size ≤ maxMessageSize → f.parsed = none →
      readPumpStep chats f = .continuing chats []) ∧
    (maxMessageSize < f.size → readPumpStep chats f = .closed) := by
  constructor
  · intro hsz hp
    simp [readPumpStep, Nat.not_lt_of_le hsz, hp]
  · intro hsz
    simp [readPumpStep, hsz]

/-- Witness for `malformed_skipped_oversized_closes`: a 10-byte malformed
frame is skipped with the loop continuing; a frame over the limit closes. -/
theorem malformed_skipped_oversized_closes_witness :
    readPumpStep (fun _ => false) ⟨10, none⟩ =
      .continuing (fun _ => false) [] ∧
    readPumpStep (fun _ => false) ⟨maxMessageSize + 7, none⟩ = .closed := by
  constructor
  · exact (malformed_skipped_oversized_closes (fun _ => false) ⟨10, none⟩).1
      (by simp [maxMessageSize]) rfl
  · exact (malformed_skipped_oversized_closes (fun _ => false)
      ⟨maxMessageSize + 7, none⟩).2 (by simp)

/-- C9: when the bearer token (query parameter, else `Authorization` header)
is missing or fails verification, `HandleWebSocket` answers `401 Unauthorized`
and returns — no session is created, nothing is registered, no pump loops are
started; a session is registered only when verification and the upgrade both
succeed. -/
theorem upgrade_auth_gate (validate : String → Option String)
    (upgradeOk : Bool) (r : UpgradeRequest) :
    (extractToken r = "" →
      handleWebSocket validate upgradeOk r = .unauthorized "token required" ∧
      sessionCreated validate upgradeOk r = none) ∧
    (extractToken r ≠ "" → validate (extractToken r) = none →
      handleWebSocket validate upgradeOk r =
        .unauthorized "invalid or expired token" ∧
      sessionCreated validate upgradeOk r = none) ∧
    (∀ uid, handleWebSocket validate upgradeOk r = .registered uid →
      extractToken r ≠ "" ∧ validate (extractToken r) = some uid ∧
      upgradeOk = true) := by
  refine ⟨?_, ?_, ?_⟩
  · intro h
    constructor
    · simp [handleWebSocket, h]
    · simp [sessionCreated, handleWebSocket, h]
  · intro h hv
    constructor
    · simp [handleWebSocket, h, hv]
    · simp [sessionCreated, handleWebSocket, h, hv]
  · intro uid hreg
    unfold handleWebSocket at hreg
    by_cases h : extractToken r = ""
    · simp [h] at hreg
    · refine ⟨h, ?_⟩
      rcases hv : validate (extractToken r) with _ | u
      · simp [h, hv] at hreg
      · rcases hup : upgradeOk with _ | _
        · simp [h, hv, hup] at hreg
        · simp [h, hv, hup] at hreg
          subst hreg
          exact ⟨rfl, rfl⟩

/-- Witness for `upgrade_auth_gate`: a request with no token at all is
rejected with `token required` and creates no session. -/
theorem upgrade_auth_gate_witness :
    handleWebSocket (fun _ => none) true ⟨"", ""⟩ =
      .unauthorized "token required" ∧
    sessionCreated (fun _ => none) true ⟨"", ""⟩ = none :=
  (upgrade_auth_gate (fun _ => none) true ⟨"", ""⟩).1 rfl

/-- C3: a published `message` event for conversation `C` goes through the
topic fan-out: when no outbound queue is at capacity, every registered session
subscribed to `C` gets exactly one copy appended to its queue, an
unsubscribed registered session's queue is untouched, and unregistered users
stay unregistered; no queue is closed by the dispatch. -/
theorem message_topic_fanout (getByID : String → Option User) (m : Message)
    (reg : Registry) (C : String)
    (hty : m.type = "message") (hc : m.chatID = C) (hC : C ≠ "") :
    (handleBroadcast getByID m reg).1 = broadcastToChat m reg ∧
    (handleBroadcast getByID m reg).2 = [] ∧
    (∀ uid s, reg uid = some s → s.chats C = true →
      s.queue.length < sendCap →
      (handleBroadcast getByID m reg).1 uid =
        some { s with queue := s.queue ++ [m] } ∧
      (s.queue ++ [m]).count m = s.queue.count m + 1) ∧
    (∀ uid s, reg uid = some s → s.chats C = false →
      (handleBroadcast getByID m reg).1 uid = some s) ∧
    (∀ uid, reg uid = none →
      (handleBroadcast getByID m reg).1 uid = none) := by
  have htgt : targetChatID m = C := by
    simp [targetChatID, hc, hC]
  have hdis : handleBroadcast getByID m reg = (broadcastToChat m reg, []) := by
    simp [handleBroadcast, hty]
  refine ⟨by rw [hdis], by rw [hdis], ?_, ?_, ?_⟩
  · intro uid s hreg hsubc hroom
    rw [hdis]
    constructor
    · simp [broadcastToChat, hreg, htgt, hsubc, trySend, applySend, hroom]
    · simp
  · intro uid s hreg hsubc
    rw [hdis]
    simp [broadcastToChat, hreg, htgt, hsubc]
  · intro uid hreg
    rw [hdis]
    simp [broadcastToChat, hreg]

/-- Witness for `message_topic_fanout`: user `u` subscribed to `c1` receives
`msgA` exactly once; unsubscribed user `w` receives nothing. -/
theorem message_topic_fanout_witness :
    ((handleBroadcast (fun _ => none) msgA
        (regSet (regSet emptyRegistry "w" (some unsubSession)) "u"
          (some { staleSession with chats := fun x => x = "c1" }))).1 "u" =
      some { staleSession with queue := [msgA], chats := fun x => x = "c1" } ∧
     ([] : List Message).count msgA + 1 = 1) ∧
    (handleBroadcast (fun _ => none) msgA
        (regSet (regSet emptyRegistry "w" (some unsubSession)) "u"
          (some { staleSession with chats := fun x => x = "c1" }))).1 "w" =
      some unsubSession := by
  have h := message_topic_fanout (fun _ => none) msgA
    (regSet (regSet emptyRegistry "w" (some unsubSession)) "u"
      (some { staleSession with chats := fun x => x = "c1" }))
    "c1" rfl rfl (by decide)
  refine ⟨?_, ?_⟩
  · have h1 := h.2.2.1 "u" { staleSession with chats := fun x => x = "c1" }
      (by simp [regSet]) (by simp) (by simp [staleSession, sendCap])
    constructor
    · have := h1.1
      simpa [staleSession] using this
    · simp
  · exact h.2.2.2.1 "w" unsubSession (by simp [regSet, unsubSession])
      (by simp [unsubSession])

/-- A userID absent from the registry stays absent through any publish
dispatch, and no delivery to it is attempted (there is no entry to enqueue
onto). -/
theorem handleBroadcast_absent (getByID : String → Option User) (m2 : Message)
    (reg : Registry) (uid : String) (h : reg uid = none) :
    (handleBroadcast getByID m2 reg).1 uid = none := by
  have hchat : broadcastToChat m2 reg uid = none := by
    simp [broadcastToChat, h]
  have hall : broadcastToAll m2 reg uid = none := by
    simp [broadcastToAll, h]
  have hfr : (broadcastToFriends getByID m2 reg).1 uid = none := by
    rcases hg : getByID m2.senderID with _ | user
    · simp [broadcastToFriends, hg, h]
    · simp only [broadcastToFriends, hg]
      exact foldl_friendDeliver_fst_none m2 user.friends uid _ h
  unfold handleBroadcast
  by_cases h1 : m2.type = "message"
  · simp [h1, hchat]
  · by_cases h2 : m2.type = "typing"
    · simp [h1, h2, hchat]
    · by_cases h3 : m2.type = "online" ∨ m2.type = "offline"
      · simp [h1, h2, h3, hfr]
      · simp [h1, h2, h3, hall]

/-- C4: when a delivery attempt of the topic fan-out hits a session whose
outbound queue is full, that session's queue is closed and it is removed from
the registry; a later publish no longer attempts delivery to it (the entry
stays absent), and the outcome for every other userID is exactly what it
would have been had the evicted session not been registered at all. -/
theorem slow_consumer_eviction (m : Message) (reg : Registry) (uid : String)
    (s : Session) (hreg : reg uid = some s)
    (hsub : s.chats (targetChatID m) = true)
    (hfull : sendCap ≤ s.queue.length) :
    trySend m s = .evicted { s with sendClosed := true } ∧
    broadcastToChat m reg uid = none ∧
    (∀ (getByID : String → Option User) (m2 : Message),
      (handleBroadcast getByID m2 (broadcastToChat m reg)).1 uid = none) ∧
    (∀ uid', uid' ≠ uid →
      broadcastToChat m reg uid' =
        broadcastToChat m (regSet reg uid none) uid') := by
  have hns : ¬ s.queue.length < sendCap := Nat.not_lt_of_le hfull
  have hgone : broadcastToChat m reg uid = none := by
    simp [broadcastToChat, hreg, hsub, trySend, applySend, hns]
  refine ⟨by simp [trySend, hns], hgone, ?_, ?_⟩
  · intro getByID m2
    exact handleBroadcast_absent getByID m2 (broadcastToChat m reg) uid hgone
  · intro uid' huid
    simp [broadcastToChat, regSet, huid]

/-- Witness for `slow_consumer_eviction`: a session for `u` subscribed to
`c1` with 256 queued messages is evicted by a further `message` delivery. -/
theorem slow_consumer_eviction_witness :
    (broadcastToChat msgA
      (regSet emptyRegistry "u"
        (some { userID := "u", queue := List.replicate 256 msgA
                sendClosed := false, chats := fun x => x = "c1" }))) "u" =
      none ∧
    (handleBroadcast (fun _ => none) msgA
      (broadcastToChat msgA
        (regSet emptyRegistry "u"
          (some { userID := "u", queue := List.replicate 256 msgA
                  sendClosed := false, chats := fun x => x = "c1" })))).1 "u" =
      none := by
  have h := slow_consumer_eviction msgA
    (regSet emptyRegistry "u"
      (some { userID := "u", queue := List.replicate 256 msgA
              sendClosed := false, chats := fun x => x = "c1" }))
    "u"
    { userID := "u", queue := List.replicate 256 msgA
      sendClosed := false, chats := fun x => x = "c1" }
    (by rfl) (by rfl)
    (le_of_eq (List.length_replicate ..).symm)
  exact ⟨h.2.1, h.2.2.1 (fun _ => none) msgA⟩

/-- C6: an inbound `subscribe` frame for conversation `c` adds `c` to the
session's local subscription set, an `unsubscribe` frame removes it, neither
forwards anything to the hub's Broadcast queue nor touches any other
subscription key; consequently a `message` for `c` published while subscribed
is delivered to the session, and one published after the unsubscribe leaves
its queue unchanged. -/
theorem subscribe_unsubscribe_local (chats : String → Bool) (c : String)
    (hc : c ≠ "") (sub unsub m : Message)
    (hsubty : sub.type = "subscribe") (hsubc : sub.chatID = c)
    (hsubg : sub.groupID = "")
    (hunty : unsub.type = "unsubscribe") (hunc : unsub.chatID = c)
    (hung : unsub.groupID = "")
    (hmc : m.chatID = c) :
    (handleInbound chats sub).2 = [] ∧
    (handleInbound chats sub).1 c = true ∧
    (∀ x, x ≠ c → (handleInbound chats sub).1 x = chats x) ∧
    (handleInbound (handleInbound chats sub).1 unsub).2 = [] ∧
    (handleInbound (handleInbound chats sub).1 unsub).1 c = false ∧
    (∀ x, x ≠ c → (handleInbound (handleInbound chats sub).1 unsub).1 x =
      (handleInbound chats sub).1 x) ∧
    (∀ (reg : Registry) (uid : String) (s : Session), reg uid = some s →
      s.chats = (handleInbound chats sub).1 → s.queue.length < sendCap →
      broadcastToChat m reg uid = some { s with queue := s.queue ++ [m] }) ∧
    (∀ (reg : Registry) (uid : String) (s : Session), reg uid = some s →
      s.chats = (handleInbound (handleInbound chats sub).1 unsub).1 →
      broadcastToChat m reg uid = some s) := by
  have htgt : targetChatID m = c := by
    simp [targetChatID, hmc, hc]
  have hr1 : (handleInbound chats sub) =
      ((fun x => if x = c then true else chats x), []) := by
    simp [handleInbound, hsubty, hsubc, hsubg, hc]
  have hr2 : (handleInbound (handleInbound chats sub).1 unsub) =
      ((fun x => if x = c then false else (handleInbound chats sub).1 x), []) := by
    simp [handleInbound, hunty, hunc, hung, hc]
  refine ⟨by rw [hr1], by rw [hr1]; simp, ?_, by rw [hr2], by rw [hr2]; simp,
    ?_, ?_, ?_⟩
  · intro x hx
    rw [hr1]
    simp [hx]
  · intro x hx
    rw [hr2]
    simp [hx]
  · intro reg uid s hreg hchats hroom
    have hs : s.chats (targetChatID m) = true := by
      rw [htgt, hchats, hr1]; simp
    simp [broadcastToChat, hreg, hs, trySend, applySend, hroom]
  · intro reg uid s hreg hchats
    have hs : s.chats (targetChatID m) = false := by
      rw [htgt, hchats, hr2]; simp
    simp [broadcastToChat, hreg, hs]

/-- Witness for `subscribe_unsubscribe_local` with concrete frames for
conversation `c1` and a concrete session. -/
theorem subscribe_unsubscribe_local_witness :
    (handleInbound (fun _ => false)
      { type := "subscribe", chatID := "c1", groupID := "", senderID := "u"
        content := "", timestamp := "" }).1 "c1" = true ∧
    (handleInbound (handleInbound (fun _ => false)
      { type := "subscribe", chatID := "c1", groupID := "", senderID := "u"
        content := "", timestamp := "" }).1
      { type := "unsubscribe", chatID := "c1", groupID := "", senderID := "u"
        content := "", timestamp := "" }).1 "c1" = false := by
  have h := subscribe_unsubscribe_local (fun _ => false) "c1" (by decide)
    { type := "subscribe", chatID := "c1", groupID := "", senderID := "u"
      content := "", timestamp := "" }
    { type := "unsubscribe", chatID := "c1", groupID := "", senderID := "u"
      content := "", timestamp := "" }
    msgA rfl rfl rfl rfl rfl rfl rfl
  exact ⟨h.2.1, h.2.2.2.2.1⟩

/-- C5: the registry keeps at most one session per userID (it is a map keyed
by userID); registering `s2` while `s1` is the current entry for that userID
leaves `s2` as the one entry, `IsUserOnline` answers `true` immediately
afterwards, and the whole Register case closes no outbound queue belonging to
that userID — in particular not the superseded `s1`'s. -/
theorem register_new_connection_wins (getByID : String → Option User)
    (reg : Registry) (s1 s2 : Session) (u : String)
    (hwf : WFReg reg) (hu2 : s2.userID = u) (hprev : reg u = some s1)
    (hnf : ∀ user, getByID u = some user → u ∉ user.friends) :
    s1.userID = u ∧
    (runRegister getByID reg s2).1 u = some s2 ∧
    isUserOnline (runRegister getByID reg s2).1 u = true ∧
    (∀ c ∈ (runRegister getByID reg s2).2, c.userID ≠ u) := by
  have hs1 : s1.userID = u := hwf u s1 hprev
  have hrun : runRegister getByID reg s2 =
      broadcastOnlineStatus getByID u true (regSet reg u (some s2)) := by
    rw [runRegister, hu2]
  have hwf0 : WFReg (regSet reg u (some s2)) := by
    intro uid s h
    by_cases he : uid = u
    · subst he
      rw [regSet_self] at h
      cases h
      exact hu2
    · rw [regSet_ne reg u uid (some s2) he] at h
      exact hwf uid s h
  rcases hg : getByID u with _ | user
  · have hb : broadcastOnlineStatus getByID u true (regSet reg u (some s2)) =
        (regSet reg u (some s2), []) := by
      simp [broadcastOnlineStatus, hg]
    refine ⟨hs1, ?_, ?_, ?_⟩
    · rw [hrun, hb]
      exact regSet_self reg u (some s2)
    · rw [hrun, hb]
      simp [isUserOnline, regSet_self]
    · intro c hc
      rw [hrun, hb] at hc
      cases hc
  · have hnotmem : u ∉ user.friends := hnf user hg
    have hb : broadcastOnlineStatus getByID u true (regSet reg u (some s2)) =
        user.friends.foldl (friendDeliver (statusMessage u true))
          (regSet reg u (some s2), []) := by
      simp [broadcastOnlineStatus, hg, broadcastToFriends, statusMessage]
    refine ⟨hs1, ?_, ?_, ?_⟩
    · rw [hrun, hb,
        foldl_friendDeliver_fst_not_mem (statusMessage u true)
          user.friends u _ hnotmem]
      exact regSet_self reg u (some s2)
    · rw [hrun, hb]
      simp [isUserOnline,
        foldl_friendDeliver_fst_not_mem (statusMessage u true)
          user.friends u _ hnotmem, regSet_self]
    · intro c hc
      rw [hrun, hb] at hc
      rcases foldl_friendDeliver_closed (statusMessage u true) user.friends
          _ hwf0 c hc with h1 | h2
      · cases h1
      · intro he
        exact hnotmem (he ▸ h2)

/-- Witness for `register_new_connection_wins`: registering `newerSession`
over `staleSession` for user `u` (user-store lookup failing, so no presence
fan-out). -/
theorem register_new_connection_wins_witness :
    staleSession.userID = "u" ∧
    (runRegister (fun _ => none) (regSet emptyRegistry "u" (some staleSession))
      newerSession).1 "u" = some newerSession ∧
    isUserOnline (runRegister (fun _ => none)
      (regSet emptyRegistry "u" (some staleSession)) newerSession).1 "u" =
      true ∧
    (∀ c ∈ (runRegister (fun _ => none)
        (regSet emptyRegistry "u" (some staleSession)) newerSession).2,
      c.userID ≠ "u") := by
  have hwf : WFReg (regSet emptyRegistry "u" (some staleSession)) := by
    intro uid s h
    by_cases he : uid = "u"
    · subst he
      rw [regSet_self] at h
      cases h
      rfl
    · rw [regSet_ne emptyRegistry "u" uid (some staleSession) he] at h
      exact Option.noConfusion h
  exact register_new_connection_wins (fun _ => none)
    (regSet emptyRegistry "u" (some staleSession)) staleSession newerSession
    "u" hwf rfl (regSet_self emptyRegistry "u" (some staleSession))
    (fun user h => Option.noConfusion h)

/-- C10: for an `online`/`offline` event, a failing user-store lookup of the
sender makes the graph fan-out return silently — nothing delivered, registry
unchanged, no queue closed; on success, delivery is attempted exactly for the
registered sessions whose userID appears in the sender's friend list, each
such session receiving the non-blocking send outcome, while sessions outside
the list and unregistered friends are untouched. -/
theorem presence_graph_fanout (getByID : String → Option User) (m : Message)
    (reg : Registry) (hty : m.type = "online" ∨ m.type = "offline") :
    (getByID m.senderID = none → handleBroadcast getByID m reg = (reg, [])) ∧
    (∀ user, getByID m.senderID = some user →
      (∀ uid, uid ∉ user.friends →
        (handleBroadcast getByID m reg).1 uid = reg uid) ∧
      (∀ uid, reg uid = none →
        (handleBroadcast getByID m reg).1 uid = none) ∧
      (user.friends.Nodup → ∀ uid s, uid ∈ user.friends → reg uid = some s →
        (handleBroadcast getByID m reg).1 uid = applySend (trySend m s))) := by
  have hdis : handleBroadcast getByID m reg = broadcastToFriends getByID m reg := by
    rcases hty with h | h <;> simp [handleBroadcast, h]
  constructor
  · intro hnone
    rw [hdis]
    simp [broadcastToFriends, hnone]
  · intro user huser
    have hb : broadcastToFriends getByID m reg =
        user.friends.foldl (friendDeliver m) (reg, []) := by
      simp [broadcastToFriends, huser]
    refine ⟨?_, ?_, ?_⟩
    · intro uid hmem
      rw [hdis, hb]
      exact foldl_friendDeliver_fst_not_mem m user.friends uid _ hmem
    · intro uid hreg
      rw [hdis, hb]
      exact foldl_friendDeliver_fst_none m user.friends uid _ hreg
    · intro hnd uid s hmem hreg
      rw [hdis, hb, foldl_friendDeliver_fst_mem m user.friends uid _ hnd hmem]
      show (reg uid).bind (fun s => applySend (trySend m s)) = _
      rw [hreg]
      rfl

/-- Witness for `presence_graph_fanout`: a failed lookup delivers nothing; a
successful lookup with friend list `["u"]` attempts delivery to the
registered session of `u`. -/
theorem presence_graph_fanout_witness :
    handleBroadcast (fun _ => none) (statusMessage "a" true)
      (regSet emptyRegistry "u" (some staleSession)) =
      (regSet emptyRegistry "u" (some staleSession), []) ∧
    (handleBroadcast (fun x => if x = "a" then some ⟨"a", ["u"]⟩ else none)
      (statusMessage "a" true)
      (regSet emptyRegistry "u" (some staleSession))).1 "u" =
      applySend (trySend (statusMessage "a" true) staleSession) := by
  constructor
  · exact (presence_graph_fanout (fun _ => none) (statusMessage "a" true)
      (regSet emptyRegistry "u" (some staleSession)) (Or.inl rfl)).1 rfl
  · have h := (presence_graph_fanout
      (fun x => if x = "a" then some ⟨"a", ["u"]⟩ else none)
      (statusMessage "a" true)
      (regSet emptyRegistry "u" (some staleSession)) (Or.inl rfl)).2
      ⟨"a", ["u"]⟩ (by rfl)
    exact h.2.2 (by simp) "u" staleSession (by simp)
      (regSet_self emptyRegistry "u" (some staleSession))

end ChatApp
